import Mathlib

/-!
Verification of the message pre-persistence pipeline of
`apps/meteor/server/services/messages/service.ts` (class `MessageService`).

The service method `beforeSave` drives four transform hooks (markdown,
bad-words, spotify links, message-URL quote attachments) followed by a
conditional validation group (MAC constraint check plus two mention guards).
The hook classes themselves live outside the analysed source tree, so they
enter the model as abstract stage functions; everything the service file
itself computes (stage order, settings reads, the freshness gate, the
bad-words watcher callback, `saveSystemMessage`, the avatar-URL wrapper and
the markdown-parser environment switch) is translated directly from the
source.
-/

namespace MessageServiceModel

/-- Settings keys read by the service (from the `settings.get` /
`settings.watchMultiple` calls in the source). -/
inductive SettingKey
  | customDomainAutoLink
  | hexColorPreviewEnabled
  | katexEnabled
  | katexDollarSyntax
  | katexParenthesisSyntax
  | messageQuoteChainLimit
  | siteUrl
  | uiUseRealName
  | readReceiptEnabled
deriving DecidableEq, Repr

/-- A dynamically-typed setting value, as delivered by the settings source. -/
inductive SettingValue
  | str (s : String)
  | boolean (b : Bool)
  | num (n : Nat)
deriving DecidableEq, Repr

/-- JavaScript truthiness of a setting value. -/
def SettingValue.truthy : SettingValue → Bool
  | SettingValue.str s => s ≠ ""
  | SettingValue.boolean b => b
  | SettingValue.num n => n ≠ 0

/-- Read a setting value as a string (string-typed reads in the source). -/
def SettingValue.asString : SettingValue → String
  | SettingValue.str s => s
  | SettingValue.boolean b => if b then ("true") else ("false")
  | SettingValue.num n => toString n

/-- Read a setting value as a number (number-typed reads in the source). -/
def SettingValue.asNat : SettingValue → Nat
  | SettingValue.num n => n
  | _ => 0

/-- A time-indexed settings store: `store t k` is the value of key `k`
observed by the `t`-th `settings.get` call of a run.  This models that each
`settings.get` in the source is an independent read of the live settings. -/
def SettingsStore : Type := Nat → SettingKey → SettingValue

/-- Katex sub-config of the markdown parser config (source lines 172-175). -/
structure KatexConfig where
  dollarS : Bool
  parenthesisS : Bool
deriving DecidableEq, Repr

/-- The markdown parser config built by `getMarkdownConfig` (source lines
159-178). -/
structure MarkdownConfig where
  colors : Bool
  emoticons : Bool
  customDomains : List String
  katex : Option KatexConfig
deriving DecidableEq, Repr

/-- Config handed to the quote-attachment hook (source lines 141-145). -/
structure QuoteConfig where
  chainLimit : Nat
  siteUrl : String
  useRealName : Bool
deriving DecidableEq, Repr

/-- Payload of a quoted-message attachment (spec section 3: quoted author,
quoted text, quoted avatar URL, originating link). -/
structure QuotedPayload where
  author : String
  text : String
  avatarUrl : String
  link : String
deriving DecidableEq, Repr

/-- A message attachment: streaming-link preview or quoted message. -/
inductive Attachment
  | streaming (ref : String)
  | quoted (q : QuotedPayload)
deriving DecidableEq, Repr

/-- The message record as used by the pipeline.  `editedMarker` is modelled
from the spec: `isEditedMessage` comes from the core-typings package (not in
the analysed tree) and tests whether the message carries an edited marker.
`ts` is the creation timestamp in milliseconds, absent when the message has
none. -/
structure Message where
  mid : String
  rid : String
  msg : String
  ts : Option Int
  editedMarker : Bool
  attachments : List Attachment
deriving DecidableEq, Repr

/-- The room argument of `beforeSave` (opaque to the service itself). -/
structure Room where
  rmid : String
deriving DecidableEq, Repr

/-- The acting-user projection `Pick<IUser, '_id'|'username'|'name'|'language'>`. -/
structure User where
  uid : String
  username : Option String
  name : Option String
  language : Option String
deriving DecidableEq, Repr

/-- A veto raised by one of the step-6 checks (the rejection carried by the
promise that `Promise.all` propagates). -/
structure VetoError where
  reason : String
deriving DecidableEq, Repr

/-- JavaScript `String(x)` on a possibly-unset environment variable:
`String(undefined)` is the text `undefined`. -/
def jsString : Option String → String
  | none => ("undefined")
  | some s => s

/-- JavaScript `toLowerCase()`, as a structural map over the characters. -/
def jsToLowerCase (s : String) : String := String.mk (s.data.map Char.toLower)

/-- Helper for `jsSplitComma`: accumulate the current field until a comma. -/
def jsSplitCommaAux : List Char → List Char → List String
  | [], acc => [String.mk acc.reverse]
  | c :: cs, acc =>
    if c = ',' then String.mk acc.reverse :: jsSplitCommaAux cs []
    else jsSplitCommaAux cs (c :: acc)

/-- JavaScript `split(',')`: the empty string yields one empty field. -/
def jsSplitComma (s : String) : List String := jsSplitCommaAux s.data []

/-- JavaScript `trim()`: strip whitespace from both ends. -/
def jsTrim (s : String) : String :=
  String.mk (((s.data.dropWhile Char.isWhitespace).reverse.dropWhile Char.isWhitespace).reverse)

/-- Source line 21:
`['yes','true'].includes(String(process.env.DISABLE_MESSAGE_PARSER).toLowerCase())`. -/
def disableMarkdownParser (env : Option String) : Bool :=
  (["yes", "true"] : List String).contains (jsToLowerCase (jsString env))

/-- Source line 57: the markdown parser hook is constructed with enabled flag
`!disableMarkdownParser`, fixed at module load for the service's lifetime. -/
def markdownParserEnabled (env : Option String) : Bool :=
  !disableMarkdownParser env

/-- `getMarkdownConfig` (source lines 159-178), with every `settings.get`
modelled as a separate timestamped read of the live store; returns the config
together with the next read index.  Read order follows source evaluation
order: the `Message_CustomDomain_AutoLink` key is read once for the truthiness
test and, when truthy, a second time for the split; then
`HexColorPreview_Enabled`, then `Katex_Enabled`, and the two katex syntax
flags only when katex is enabled. -/
def getMarkdownConfigS (store : SettingsStore) (t : Nat) : MarkdownConfig × Nat :=
  let cdTest := (store t SettingKey.customDomainAutoLink).truthy
  let customDomains :=
    if cdTest then
      ((jsSplitComma (store (t + 1) SettingKey.customDomainAutoLink).asString).map jsTrim)
    else []
  let t1 := if cdTest then t + 2 else t + 1
  let colors := (store t1 SettingKey.hexColorPreviewEnabled).truthy
  let katexOn := (store (t1 + 1) SettingKey.katexEnabled).truthy
  let katex :=
    if katexOn then
      some { dollarS := (store (t1 + 2) SettingKey.katexDollarSyntax).truthy,
             parenthesisS := (store (t1 + 3) SettingKey.katexParenthesisSyntax).truthy }
    else none
  ({ colors := colors, emoticons := true, customDomains := customDomains, katex := katex },
   if katexOn then t1 + 4 else t1 + 2)

/-- The markdown config a run starting its reads at index `t` observes. -/
def getMarkdownConfigAt (store : SettingsStore) (t : Nat) : MarkdownConfig :=
  (getMarkdownConfigS store t).1

/-- Modelled from the spec: the spec's configuration-access model, in which a
run dereferences one immutable snapshot once and uses it throughout
(spec sections 4.1 and 9).  Stated for comparison with `getMarkdownConfigAt`,
which performs one live read per `settings.get` call as the source does. -/
def getMarkdownConfigOnce (snap : SettingKey → SettingValue) : MarkdownConfig :=
  let cd := snap SettingKey.customDomainAutoLink
  let customDomains :=
    if cd.truthy then ((jsSplitComma cd.asString).map jsTrim) else []
  { colors := (snap SettingKey.hexColorPreviewEnabled).truthy,
    emoticons := true,
    customDomains := customDomains,
    katex :=
      if (snap SettingKey.katexEnabled).truthy then
        some { dollarS := (snap SettingKey.katexDollarSyntax).truthy,
               parenthesisS := (snap SettingKey.katexParenthesisSyntax).truthy }
      else none }

/-- `isEditedOrOld` (source lines 180-182):
`isEditedMessage(message) || !message.ts || Math.abs(Date.now() - message.ts.getTime()) > 60000`.
`now` stands for `Date.now()` at the moment of the gate test. -/
def isEditedOrOld (now : Int) (m : Message) : Bool :=
  m.editedMarker ||
    match m.ts with
    | none => true
    | some t => decide ((now - t).natAbs > 60000)

/-- The four transform hooks called by `beforeSave`.  Their implementations
live outside the analysed source tree, so they are abstract stage functions;
the service calls them with exactly the arguments recorded here. -/
structure Hooks where
  parseMarkdown : MarkdownConfig → Message → Message
  filterBadWords : Message → Message
  convertSpotifyLinks : Message → Message
  createAttachmentForMessageURLs : QuoteConfig → User → Message → Message

/-- The step-6 validation hooks called by `beforeSave`.  `none` means the
check passes; `some e` means the check's promise rejects with veto `e`. -/
structure Checks where
  isWithinLimits : Message → Room → Option VetoError
  preventMention : Message → User → String → String → Option VetoError

/-- The quote config built inline in `beforeSave` (source lines 141-145),
reading three settings starting at read index `t`. -/
def quoteConfigAt (store : SettingsStore) (t : Nat) : QuoteConfig :=
  { chainLimit := (store t SettingKey.messageQuoteChainLimit).asNat,
    siteUrl := (store (t + 1) SettingKey.siteUrl).asString,
    useRealName := (store (t + 2) SettingKey.uiUseRealName).truthy }

/-- `beforeSave` (source lines 122-157): the four transform stages in source
order, each output feeding the next stage, then the freshness gate, then --
only when the gate passes -- the three step-6 checks.  `Promise.all`'s
rejection is modelled by the first rejecting check in array order (source
lines 149-153); when several checks veto, the source surfaces whichever
rejection settles first, and the array order is the deterministic
resolution used here. -/
def beforeSave (hooks : Hooks) (checks : Checks) (store : SettingsStore)
    (now : Int) (room : Room) (user : User) (message : Message) :
    Except VetoError Message :=
  let mc := getMarkdownConfigS store 0
  let message := hooks.parseMarkdown mc.1 message
  let message := hooks.filterBadWords message
  let message := hooks.convertSpotifyLinks message
  let message := hooks.createAttachmentForMessageURLs (quoteConfigAt store mc.2) user message
  if !(isEditedOrOld now message) then
    match checks.isWithinLimits message room with
    | some e => Except.error e
    | none =>
      match checks.preventMention message user ("all") ("mention-all") with
      | some e => Except.error e
      | none =>
        match checks.preventMention message user ("here") ("mention-here") with
        | some e => Except.error e
        | none => Except.ok message
  else
    Except.ok message

/-- The message produced by the four transform stages of `beforeSave`, in
source order. -/
def applyTransforms (hooks : Hooks) (store : SettingsStore) (user : User)
    (message : Message) : Message :=
  hooks.createAttachmentForMessageURLs (quoteConfigAt store (getMarkdownConfigS store 0).2) user
    (hooks.convertSpotifyLinks
      (hooks.filterBadWords
        (hooks.parseMarkdown (getMarkdownConfigAt store 0) message)))

/-- The step-6 validation group applied to an already-transformed message. -/
def applyChecks (checks : Checks) (room : Room) (user : User) (message : Message) :
    Except VetoError Message :=
  match checks.isWithinLimits message room with
  | some e => Except.error e
  | none =>
    match checks.preventMention message user ("all") ("mention-all") with
    | some e => Except.error e
    | none =>
      match checks.preventMention message user ("here") ("mention-here") with
      | some e => Except.error e
      | none => Except.ok message

theorem beforeSave_eq (hooks : Hooks) (checks : Checks) (store : SettingsStore)
    (now : Int) (room : Room) (user : User) (m : Message) :
    beforeSave hooks checks store now room user m =
      if isEditedOrOld now (applyTransforms hooks store user m) then
        Except.ok (applyTransforms hooks store user m)
      else
        applyChecks checks room user (applyTransforms hooks store user m) := by
  have hT : hooks.createAttachmentForMessageURLs (quoteConfigAt store (getMarkdownConfigS store 0).2) user
      (hooks.convertSpotifyLinks (hooks.filterBadWords
        (hooks.parseMarkdown (getMarkdownConfigS store 0).1 m)))
      = applyTransforms hooks store user m := rfl
  simp only [beforeSave]
  rw [hT]
  cases h : isEditedOrOld now (applyTransforms hooks store user m) <;>
    simp [h, applyChecks]

/-- A transform hook that preserves the message's edited marker and creation
timestamp (true of all four real hooks, which rewrite text and attachments). -/
def preservesMeta (f : Message → Message) : Prop :=
  ∀ m, (f m).editedMarker = m.editedMarker ∧ (f m).ts = m.ts

/-- Modelled from the spec: the freshness predicate exactly as the spec words
it -- "message has no edited marker AND (message has no creation timestamp OR
the creation timestamp is within a 60-second tolerance window of the current
processing time)".  Stated for comparison with the source's `isEditedOrOld`. -/
def isFreshAndUneditedSpec (now : Int) (m : Message) : Bool :=
  !m.editedMarker &&
    (m.ts.isNone ||
      match m.ts with
      | none => true
      | some t => decide ((now - t).natAbs ≤ 60000))

/-- The watcher callback state of the bad-words hook.  Modelled from the
spec: the `BeforeSaveBadWords` hook class is not in the analysed tree; per
spec section 4.3 it is either disabled entirely (pass-through) or configured
with a word list and whitelist. -/
inductive BadWordsState
  | disabled
  | configured (badWordsList : String) (whiteList : String)
deriving DecidableEq, Repr

/-- The `configureBadWords` watcher callback (source lines 66-72): when the
`Message_AllowBadWordsFilter` value is falsy the hook is disabled, otherwise
it is configured with the current list and whitelist. -/
def badWordsCallback (enabled : SettingValue) (badWordsList whiteList : String) :
    BadWordsState :=
  if !enabled.truthy then BadWordsState.disabled
  else BadWordsState.configured badWordsList whiteList

/-- Modelled from the spec: the bad-words filter itself (hook class not in the
analysed tree).  Spec section 4.3: disabled means pass-through with text
unchanged; when configured, the masking function `mask` is applied with the
configured list and whitelist.  `mask` is abstract because the claim fixes the
pipeline contract, not the matcher's content. -/
def filterBadWordsModel (mask : String → String → String → String)
    (st : BadWordsState) (text : String) : String :=
  match st with
  | BadWordsState.disabled => text
  | BadWordsState.configured l w => mask l w text

/-- One permalink match of the quote-link stage, tagged with the outcome of
its external resolution.  Modelled from the spec: `BeforeSaveJumpToMessage`
is not in the analysed tree; spec section 4.5 distinguishes a missing
message/room, denied access, and a successful resolution carrying the quoted
payload. -/
inductive LinkResolution
  | missing
  | denied
  | resolved (q : QuotedPayload)
deriving DecidableEq, Repr

/-- The payload of a successfully resolved link, `none` for silent skips. -/
def LinkResolution.payload : LinkResolution → Option QuotedPayload
  | LinkResolution.resolved q => some q
  | _ => none

/-- Modelled from the spec: the quote-link scan (spec section 4.5).  Matches
are processed in left-to-right order; a missing or denied match is skipped
silently and consumes no budget; each successful resolution appends one
quoted payload, and once the chain limit is exhausted further matches are
ignored. -/
def processQuoteLinks : Nat → List LinkResolution → List QuotedPayload
  | _, [] => []
  | 0, _ :: _ => []
  | n + 1, l :: ls =>
    match l with
    | LinkResolution.resolved q => q :: processQuoteLinks n ls
    | _ => processQuoteLinks (n + 1) ls

/-- Modelled from the spec: the quote-link stage appends its quoted payloads
as attachments at the end of the message's attachment list (spec section 3:
attachments are append-only within a run). -/
def createAttachmentForMessageURLsModel (chainLimit : Nat)
    (ls : List LinkResolution) (m : Message) : Message :=
  { m with attachments :=
      m.attachments ++ (processQuoteLinks chainLimit ls).map Attachment.quoted }

/-- A persisted effect of `saveSystemMessage`: the insert performed through
`Messages.createWithTypeRoomIdMessageUserAndUnread` and the subsequent
`broadcastMessageSentEvent`. -/
inductive Effect
  | insert (type : String) (rid : String) (message : String)
      (userId : String) (username : String) (name : Option String)
      (readReceipt : Bool)
  | broadcast (insertedId : String)
deriving DecidableEq, Repr

/-- The `owner` argument of `saveSystemMessage`:
`Pick<IUser, '_id' | 'username' | 'name'>`. -/
structure Owner where
  uid : String
  username : Option String
  name : Option String
deriving DecidableEq, Repr

/-- `saveSystemMessage` (source lines 96-120): destructure the owner, throw
before any write when the username is falsy (absent or empty), otherwise
insert the message via the models collaborator, fire the broadcast and return
the inserted identifier.  `create` abstracts the collaborator's assignment of
the inserted identifier; the returned effect list records what was
persisted/emitted, and the error branch performs no effect. -/
def saveSystemMessage (create : Effect → String) (readReceipt : Bool)
    (type rid message : String) (owner : Owner) :
    Except String (String × List Effect) :=
  match owner.username with
  | none => Except.error ("The username cannot be empty.")
  | some u =>
    if u = "" then Except.error ("The username cannot be empty.")
    else
      let ins := Effect.insert type rid message owner.uid u owner.name readReceipt
      let insertedId := create ins
      Except.ok (insertedId, [ins, Effect.broadcast insertedId])

/-- The avatar-URL hook handed to `BeforeSaveJumpToMessage` (source lines
52-54): `(user && getUserAvatarURL(user)) || ''`.  The inner
`getUserAvatarURL` utility is outside the analysed tree and is modelled as a
total best-effort resolver per spec section 6 (`AvatarResolver`): `none`
models a resolution that yields no URL. -/
def avatarUrlHook (resolve : String → Option String) (user : Option String) : String :=
  match user with
  | none => ""
  | some u =>
    if u = "" then ""
    else
      match resolve u with
      | none => ""
      | some url => if url = "" then "" else url

deriving instance DecidableEq for Except

/-- Identity transform hooks: concrete instantiation used in witnesses. -/
def idHooks : Hooks :=
  { parseMarkdown := fun _ m => m,
    filterBadWords := fun m => m,
    convertSpotifyLinks := fun m => m,
    createAttachmentForMessageURLs := fun _ _ m => m }

/-- Transform hooks that tag the message text with the stage that ran,
recording traversal order. -/
def tagHooks : Hooks :=
  { parseMarkdown := fun _ m => { m with msg := m.msg ++ ("|markdown") },
    filterBadWords := fun m => { m with msg := m.msg ++ ("|badwords") },
    convertSpotifyLinks := fun m => { m with msg := m.msg ++ ("|spotify") },
    createAttachmentForMessageURLs := fun _ _ m => { m with msg := m.msg ++ ("|quotelink") } }

/-- Checks that all veto: concrete instantiation used in witnesses. -/
def vetoChecks : Checks :=
  { isWithinLimits := fun _ _ => some { reason := ("mac-limit") },
    preventMention := fun _ _ mention _ => some { reason := mention } }

/-- Checks that all pass: concrete instantiation used in witnesses. -/
def noVetoChecks : Checks :=
  { isWithinLimits := fun _ _ => none,
    preventMention := fun _ _ _ _ => none }

/-- A settings store whose every read yields the empty string (all features
off), constant in time. -/
def store0 : SettingsStore := fun _ _ => SettingValue.str ""

/-- A settings store in which `Message_CustomDomain_AutoLink` (like every
key) changes between read 0 and read 1 of a run. -/
def storeChanging : SettingsStore :=
  fun t _ => if t = 0 then SettingValue.str ("example.com") else SettingValue.str ""

def room0 : Room := { rmid := ("r1") }

def user0 : User := { uid := ("u1"), username := some ("bob"), name := none, language := none }

/-- A message with no edited marker and no creation timestamp. -/
def mNoTs : Message :=
  { mid := ("m1"), rid := ("r1"), msg := ("hi"), ts := none, editedMarker := false,
    attachments := [] }

/-- A fresh, unedited message (created at time 0). -/
def mFresh : Message :=
  { mid := ("m2"), rid := ("r1"), msg := ("hi"), ts := some 0, editedMarker := false,
    attachments := [] }

/-- A message carrying an edited marker. -/
def mEdited : Message :=
  { mid := ("m3"), rid := ("r1"), msg := ("hi"), ts := some 0, editedMarker := true,
    attachments := [] }

/-- Claim C2: `beforeSave` applies the four transform stages strictly
sequentially in the fixed order markdown, then bad-words, then link
enrichment (spotify), then quote-link (message-URL attachments), each stage's
output being the next stage's input, and these four stages always run before
the conditional validation step, which only ever sees the fully transformed
message.  The second conjunct exhibits the order concretely through tagging
hooks. -/
theorem beforeSave_stage_order :
    (∀ (hooks : Hooks) (checks : Checks) (store : SettingsStore) (now : Int)
        (room : Room) (user : User) (m : Message),
      beforeSave hooks checks store now room user m =
        if isEditedOrOld now
            (hooks.createAttachmentForMessageURLs
              (quoteConfigAt store (getMarkdownConfigS store 0).2) user
              (hooks.convertSpotifyLinks
                (hooks.filterBadWords
                  (hooks.parseMarkdown (getMarkdownConfigAt store 0) m)))) then
          Except.ok
            (hooks.createAttachmentForMessageURLs
              (quoteConfigAt store (getMarkdownConfigS store 0).2) user
              (hooks.convertSpotifyLinks
                (hooks.filterBadWords
                  (hooks.parseMarkdown (getMarkdownConfigAt store 0) m))))
        else
          applyChecks checks room user
            (hooks.createAttachmentForMessageURLs
              (quoteConfigAt store (getMarkdownConfigS store 0).2) user
              (hooks.convertSpotifyLinks
                (hooks.filterBadWords
                  (hooks.parseMarkdown (getMarkdownConfigAt store 0) m))))) ∧
    beforeSave tagHooks noVetoChecks store0 0 room0 user0 mFresh =
      Except.ok { mFresh with msg := ("hi|markdown|badwords|spotify|quotelink") } := by
  constructor
  · intro hooks checks store now room user m
    exact beforeSave_eq hooks checks store now room user m
  · decide

/-- Claim C3: for a fresh, unedited message (the freshness gate passes on the
transformed message), if none of the three step-6 checks vetoes, `beforeSave`
returns the fully transformed message with all stage-1-4 mutations applied;
if any check vetoes, `beforeSave` aborts with a vetoing check's error and
returns no message. -/
theorem beforeSave_veto_or_accept (hooks : Hooks) (checks : Checks)
    (store : SettingsStore) (now : Int) (room : Room) (user : User) (m : Message)
    (hfresh : isEditedOrOld now (applyTransforms hooks store user m) = false) :
    ((checks.isWithinLimits (applyTransforms hooks store user m) room = none ∧
      checks.preventMention (applyTransforms hooks store user m) user ("all") ("mention-all") = none ∧
      checks.preventMention (applyTransforms hooks store user m) user ("here") ("mention-here") = none) →
      beforeSave hooks checks store now room user m =
        Except.ok (applyTransforms hooks store user m)) ∧
    ((checks.isWithinLimits (applyTransforms hooks store user m) room ≠ none ∨
      checks.preventMention (applyTransforms hooks store user m) user ("all") ("mention-all") ≠ none ∨
      checks.preventMention (applyTransforms hooks store user m) user ("here") ("mention-here") ≠ none) →
      ∃ e : VetoError,
        beforeSave hooks checks store now room user m = Except.error e ∧
        (checks.isWithinLimits (applyTransforms hooks store user m) room = some e ∨
         checks.preventMention (applyTransforms hooks store user m) user ("all") ("mention-all") = some e ∨
         checks.preventMention (applyTransforms hooks store user m) user ("here") ("mention-here") = some e)) := by
  have hb := beforeSave_eq hooks checks store now room user m
  rw [hfresh] at hb
  simp only [Bool.false_eq_true, if_false] at hb
  constructor
  · rintro ⟨h1, h2, h3⟩
    rw [hb]
    unfold applyChecks
    rw [h1, h2, h3]
  · intro hv
    rcases h1 : checks.isWithinLimits (applyTransforms hooks store user m) room with _ | e
    · rcases h2 : checks.preventMention (applyTransforms hooks store user m) user ("all") ("mention-all") with _ | e
      · rcases h3 : checks.preventMention (applyTransforms hooks store user m) user ("here") ("mention-here") with _ | e
        · rcases hv with h | h | h
          · exact absurd h1 h
          · exact absurd h2 h
          · exact absurd h3 h
        · refine ⟨e, ?_, Or.inr (Or.inr rfl)⟩
          rw [hb]
          unfold applyChecks
          rw [h1, h2, h3]
      · refine ⟨e, ?_, Or.inr (Or.inl rfl)⟩
        rw [hb]
        unfold applyChecks
        rw [h1, h2]
    · refine ⟨e, ?_, Or.inl rfl⟩
      rw [hb]
      unfold applyChecks
      rw [h1]

/-- Witness for claim C3 at a concrete fresh message: the gate passes and the
no-veto run returns the transformed message. -/
theorem beforeSave_veto_or_accept_witness :
    isEditedOrOld 0 (applyTransforms idHooks store0 user0 mFresh) = false ∧
    beforeSave idHooks noVetoChecks store0 0 room0 user0 mFresh =
      Except.ok (applyTransforms idHooks store0 user0 mFresh) :=
  ⟨by decide,
   (beforeSave_veto_or_accept idHooks noVetoChecks store0 0 room0 user0 mFresh
      (by decide)).1 ⟨rfl, rfl, rfl⟩⟩

theorem applyTransforms_meta (hooks : Hooks) (store : SettingsStore) (user : User)
    (m : Message)
    (hp1 : ∀ cfg, preservesMeta (hooks.parseMarkdown cfg))
    (hp2 : preservesMeta hooks.filterBadWords)
    (hp3 : preservesMeta hooks.convertSpotifyLinks)
    (hp4 : ∀ cfg u, preservesMeta (hooks.createAttachmentForMessageURLs cfg u)) :
    (applyTransforms hooks store user m).editedMarker = m.editedMarker ∧
    (applyTransforms hooks store user m).ts = m.ts := by
  unfold applyTransforms
  constructor
  · rw [(hp4 _ _ _).1, (hp3 _).1, (hp2 _).1, (hp1 _ _).1]
  · rw [(hp4 _ _ _).2, (hp3 _).2, (hp2 _).2, (hp1 _ _).2]

/-- Claim C4: for every message that has an edited marker set, or whose
creation timestamp is more than 60 seconds in the past at processing time,
`beforeSave` invokes none of the step-6 checks, regardless of the message's
content: assuming the transform hooks preserve the edited marker and
timestamp (as the real text/attachment hooks do), the run returns the
transformed message as `ok` and its outcome is the same for any two check
implementations whatsoever. -/
theorem beforeSave_skips_checks_when_edited_or_old (hooks : Hooks)
    (checks checks' : Checks) (store : SettingsStore) (now : Int) (room : Room)
    (user : User) (m : Message)
    (hp1 : ∀ cfg, preservesMeta (hooks.parseMarkdown cfg))
    (hp2 : preservesMeta hooks.filterBadWords)
    (hp3 : preservesMeta hooks.convertSpotifyLinks)
    (hp4 : ∀ cfg u, preservesMeta (hooks.createAttachmentForMessageURLs cfg u))
    (hold : m.editedMarker = true ∨ ∃ t, m.ts = some t ∧ now - t > 60000) :
    beforeSave hooks checks store now room user m =
      Except.ok (applyTransforms hooks store user m) ∧
    beforeSave hooks checks store now room user m =
      beforeSave hooks checks' store now room user m := by
  have hm := applyTransforms_meta hooks store user m hp1 hp2 hp3 hp4
  have hg : isEditedOrOld now (applyTransforms hooks store user m) = true := by
    unfold isEditedOrOld
    rcases hold with he | ⟨t, hts, hgt⟩
    · rw [hm.1, he]
      simp
    · rw [hm.1, hm.2, hts]
      have : (now - t).natAbs > 60000 := by omega
      simp [this]
  rw [beforeSave_eq hooks checks store now room user m,
      beforeSave_eq hooks checks' store now room user m, hg]
  exact ⟨rfl, rfl⟩

/-- Witness for claim C4 at a concrete edited message: both a vetoing and a
passing check family give the same `ok` outcome. -/
theorem beforeSave_skips_checks_witness :
    (mEdited.editedMarker = true ∨ ∃ t, mEdited.ts = some t ∧ (0 : Int) - t > 60000) ∧
    beforeSave idHooks vetoChecks store0 0 room0 user0 mEdited =
      Except.ok (applyTransforms idHooks store0 user0 mEdited) ∧
    beforeSave idHooks vetoChecks store0 0 room0 user0 mEdited =
      beforeSave idHooks noVetoChecks store0 0 room0 user0 mEdited :=
  ⟨Or.inl rfl,
   (beforeSave_skips_checks_when_edited_or_old idHooks vetoChecks noVetoChecks store0 0
      room0 user0 mEdited (fun _ _ => ⟨rfl, rfl⟩) (fun _ => ⟨rfl, rfl⟩)
      (fun _ => ⟨rfl, rfl⟩) (fun _ _ _ => ⟨rfl, rfl⟩) (Or.inl rfl)).1,
   (beforeSave_skips_checks_when_edited_or_old idHooks vetoChecks noVetoChecks store0 0
      room0 user0 mEdited (fun _ _ => ⟨rfl, rfl⟩) (fun _ => ⟨rfl, rfl⟩)
      (fun _ => ⟨rfl, rfl⟩) (fun _ _ _ => ⟨rfl, rfl⟩) (Or.inl rfl)).2⟩

/-- Claim C1 (counterexample): the claim's freshness condition -- no edited
marker AND (no creation timestamp OR within the 60-second window) -- holds of
a message with no creation timestamp, yet `beforeSave` does not run the
step-6 validation group on it: even when every check vetoes, the run returns
`ok`, contradicting the claimed "if and only if". -/
theorem freshness_gate_counterexample :
    isFreshAndUneditedSpec 0 mNoTs = true ∧
    isEditedOrOld 0 mNoTs = true ∧
    beforeSave idHooks vetoChecks store0 0 room0 user0 mNoTs = Except.ok mNoTs := by
  decide

/-- Claim C1 (amended): the step-6 validation group runs if and only if the
(transformed) message has no edited marker AND has a creation timestamp AND
that timestamp is within the 60-second tolerance window of the processing
time; a message with no creation timestamp is treated as stale and skips
validation.  When the gate fails the result is `ok` with the transformed
message; when it holds the result is exactly the validation group's
verdict. -/
theorem freshness_gate_amended (hooks : Hooks) (checks : Checks)
    (store : SettingsStore) (now : Int) (room : Room) (user : User) (m : Message) :
    (isEditedOrOld now (applyTransforms hooks store user m) = false ↔
      ((applyTransforms hooks store user m).editedMarker = false ∧
       ∃ t, (applyTransforms hooks store user m).ts = some t ∧
         (now - t).natAbs ≤ 60000)) ∧
    (isEditedOrOld now (applyTransforms hooks store user m) = true →
      beforeSave hooks checks store now room user m =
        Except.ok (applyTransforms hooks store user m)) ∧
    (isEditedOrOld now (applyTransforms hooks store user m) = false →
      beforeSave hooks checks store now room user m =
        applyChecks checks room user (applyTransforms hooks store user m)) := by
  refine ⟨?_, ?_, ?_⟩
  · unfold isEditedOrOld
    cases he : (applyTransforms hooks store user m).editedMarker
    · rcases hts : (applyTransforms hooks store user m).ts with _ | t
      · simp [hts, he]
      · simp only [hts, he, Bool.false_or, decide_eq_false_iff_not, Nat.not_lt,
          Option.some.injEq]
        constructor
        · intro h
          exact ⟨trivial, t, rfl, h⟩
        · rintro ⟨-, t', rfl, h⟩
          exact h
    · simp [he]
  · intro hg
    rw [beforeSave_eq hooks checks store now room user m, hg]
    rfl
  · intro hg
    rw [beforeSave_eq hooks checks store now room user m, hg]
    rfl

/-- Witness for claim C1 (amended) at a concrete fresh message: the gate
passes and the result is the validation group's verdict. -/
theorem freshness_gate_amended_witness :
    isEditedOrOld 0 (applyTransforms idHooks store0 user0 mFresh) = false ∧
    beforeSave idHooks vetoChecks store0 0 room0 user0 mFresh =
      applyChecks vetoChecks room0 user0 (applyTransforms idHooks store0 user0 mFresh) :=
  ⟨by decide,
   (freshness_gate_amended idHooks vetoChecks store0 0 room0 user0 mFresh).2.2 (by decide)⟩

/-- Claim C9 (counterexample): configuration is NOT dereferenced once at the
start of a run.  `getMarkdownConfig` issues one live `settings.get` per use --
reading `Message_CustomDomain_AutoLink` twice -- so under a store whose value
changes between read 0 and read 1 the run observes a configuration that
matches no single snapshot: neither the snapshot at the start of the run nor
the later one. -/
theorem config_single_deref_counterexample :
    getMarkdownConfigAt storeChanging 0 ≠ getMarkdownConfigOnce (storeChanging 0) ∧
    getMarkdownConfigAt storeChanging 0 ≠ getMarkdownConfigOnce (storeChanging 1) := by
  decide

/-- Claim C9 (amended): each `settings.get` of a run is an independent read of
the live settings (so a change arriving mid-run can be observed partially);
only when the settings do not change for the duration of the run do the
per-call reads agree with the spec's dereference-once snapshot model. -/
theorem config_single_deref_amended (store : SettingsStore)
    (hconst : ∀ t k, store t k = store 0 k) (t0 : Nat) :
    getMarkdownConfigAt store t0 = getMarkdownConfigOnce (store 0) := by
  unfold getMarkdownConfigAt getMarkdownConfigS getMarkdownConfigOnce
  simp only [hconst]

/-- Witness for claim C9 (amended) at the constant store. -/
theorem config_single_deref_amended_witness :
    (∀ t k, store0 t k = store0 0 k) ∧
    getMarkdownConfigAt store0 0 = getMarkdownConfigOnce (store0 0) :=
  ⟨fun _ _ => rfl, config_single_deref_amended store0 (fun _ _ => rfl) 0⟩

theorem processQuoteLinks_eq_take (n : Nat) (ls : List LinkResolution) :
    processQuoteLinks n ls = (ls.filterMap LinkResolution.payload).take n := by
  induction ls generalizing n with
  | nil => cases n <;> simp [processQuoteLinks]
  | cons l ls ih =>
    cases n with
    | zero => simp [processQuoteLinks]
    | succ n =>
      cases l <;> simp [processQuoteLinks, LinkResolution.payload, ih]

/-- Claim C5: for a message whose text contains K valid, accessible quotable
permalinks (and any number of invalid ones, skipped silently) and a
configured chain limit N, the quote-link stage appends exactly min(K, N)
quoted attachments, taken in left-to-right order of appearance: the appended
attachments are precisely the first min(K, N) successfully resolved payloads
in text order, appended after the existing attachments. -/
theorem quote_chain_limit (chainLimit : Nat) (ls : List LinkResolution) (m : Message) :
    processQuoteLinks chainLimit ls =
      (ls.filterMap LinkResolution.payload).take chainLimit ∧
    (processQuoteLinks chainLimit ls).length =
      min (ls.filterMap LinkResolution.payload).length chainLimit ∧
    (createAttachmentForMessageURLsModel chainLimit ls m).attachments =
      m.attachments ++
        ((ls.filterMap LinkResolution.payload).take chainLimit).map Attachment.quoted := by
  refine ⟨processQuoteLinks_eq_take chainLimit ls, ?_, ?_⟩
  · rw [processQuoteLinks_eq_take chainLimit ls, List.length_take, Nat.min_comm]
  · unfold createAttachmentForMessageURLsModel
    rw [processQuoteLinks_eq_take chainLimit ls]

/-- Claim C6: whenever the bad-words feature flag is off (falsy) in the
watched settings, the watcher callback disables the stage and the filter is a
pass-through leaving the text unchanged, regardless of the configured word
list and of the masking function; when the flag is on, the callback
configures the stage with the current banned list and whitelist, and the
filter applies the mask with exactly those. -/
theorem badwords_flag_semantics (enabled : SettingValue)
    (badWordsList whiteList : String)
    (mask : String → String → String → String) (text : String) :
    badWordsCallback enabled badWordsList whiteList =
      (if enabled.truthy then BadWordsState.configured badWordsList whiteList
       else BadWordsState.disabled) ∧
    filterBadWordsModel mask (badWordsCallback enabled badWordsList whiteList) text =
      (if enabled.truthy then mask badWordsList whiteList text else text) := by
  cases h : enabled.truthy <;> simp [badWordsCallback, filterBadWordsModel, h]

/-- Claim C7: `saveSystemMessage` with an empty or missing owner username
throws before any write or broadcast (the error branch performs no effect);
with a non-empty username it persists the message -- one insert followed by
the broadcast of the inserted identifier -- and returns the identifier the
persistence collaborator assigned. -/
theorem saveSystemMessage_semantics (create : Effect → String) (readReceipt : Bool)
    (type rid message : String) (owner : Owner) :
    ((owner.username = none ∨ owner.username = some ("")) →
      saveSystemMessage create readReceipt type rid message owner =
        Except.error ("The username cannot be empty.")) ∧
    (∀ u, owner.username = some u → u ≠ ("") →
      saveSystemMessage create readReceipt type rid message owner =
        Except.ok
          (create (Effect.insert type rid message owner.uid u owner.name readReceipt),
           [Effect.insert type rid message owner.uid u owner.name readReceipt,
            Effect.broadcast
              (create (Effect.insert type rid message owner.uid u owner.name readReceipt))])) := by
  constructor
  · rintro (h | h) <;> simp [saveSystemMessage, h]
  · intro u hu hne
    simp [saveSystemMessage, hu, hne]

/-- An owner whose username is the empty string. -/
def ownerEmpty : Owner := { uid := ("u1"), username := some (""), name := none }

/-- Witness for claim C7: the empty-username owner is rejected with the
source's error message and no effect. -/
theorem saveSystemMessage_semantics_witness :
    (ownerEmpty.username = none ∨ ownerEmpty.username = some ("")) ∧
    saveSystemMessage (fun _ => ("id1")) false ("uj") ("r1") ("hello") ownerEmpty =
      Except.error ("The username cannot be empty.") :=
  ⟨Or.inr rfl,
   (saveSystemMessage_semantics (fun _ => ("id1")) false ("uj") ("r1") ("hello")
      ownerEmpty).1 (Or.inr rfl)⟩

/-- Claim C8: the avatar-URL resolver handed to the quote-link stage never
raises (it is a total function of the username and the best-effort inner
resolver) and returns the empty string whenever the username is absent or
empty, or the inner resolution yields no URL (or an empty one); quote
processing then proceeds with that empty URL. -/
theorem avatar_hook_fallback (resolve : String → Option String) (user : Option String) :
    ((user = none ∨ user = some ("")) → avatarUrlHook resolve user = "") ∧
    (∀ u, user = some u → resolve u = none → avatarUrlHook resolve user = "") ∧
    (∀ u, user = some u → resolve u = some ("") → avatarUrlHook resolve user = "") := by
  refine ⟨?_, ?_, ?_⟩
  · rintro (h | h) <;> simp [avatarUrlHook, h]
  · intro u hu hr
    by_cases he : u = ("") <;> simp [avatarUrlHook, hu, hr, he]
  · intro u hu hr
    by_cases he : u = ("") <;> simp [avatarUrlHook, hu, hr, he]

/-- Witness for claim C8: absent username and a resolver that always fails
both yield the empty string. -/
theorem avatar_hook_fallback_witness :
    ((none : Option String) = none ∨ (none : Option String) = some ("")) ∧
    avatarUrlHook (fun _ => none) none = "" :=
  ⟨Or.inl rfl, (avatar_hook_fallback (fun _ => none) none).1 (Or.inl rfl)⟩

theorem contains_yes_true (s : String) :
    (["yes", "true"] : List String).contains s = (s == ("yes") || s == ("true")) := by
  cases h1 : s == ("yes") <;> cases h2 : s == ("true") <;>
    simp [List.contains, List.elem, h1, h2]

/-- Claim C10: the markdown parser is constructed disabled exactly when the
lowercased `DISABLE_MESSAGE_PARSER` environment value is the text yes or
true; any other value -- including the variable being unset, which
stringifies to the text undefined -- leaves parsing enabled.  The flag is a
pure function of the environment value captured at module load, so it cannot
change for the lifetime of the service. -/
theorem markdown_parser_env_gate :
    (∀ env : Option String,
      markdownParserEnabled env = false ↔
        (jsToLowerCase (jsString env) = ("yes") ∨
         jsToLowerCase (jsString env) = ("true"))) ∧
    markdownParserEnabled none = true := by
  constructor
  · intro env
    simp only [markdownParserEnabled, disableMarkdownParser, contains_yes_true,
      Bool.not_eq_false', Bool.or_eq_true, beq_iff_eq]
  · decide

/-- Witness for claim C10: an uppercase TRUE value disables the parser. -/
theorem markdown_parser_env_gate_witness :
    markdownParserEnabled (some ("TRUE")) = false :=
  (markdown_parser_env_gate.1 (some ("TRUE"))).mpr (Or.inr (by decide))

end MessageServiceModel
